import Mathlib

/-!
Verification of the WebDAV filesystem network subsystem
(`src/mount.tproj/webdav_network.c`) against its natural-language
specification.  The C code is shallowly embedded: pure helpers become Lean
functions on `Nat`/`Int`/`List`, the stateful transaction code becomes
explicit state passing, and external collaborators (the HTTP stream, the
certificate-confirmation UI, the request queue) become explicit inputs.
-/

namespace WebdavNetwork

/-! ## errno constants (BSD values, from sys/errno.h) -/

def EPERM : Nat := 1
def ENOENT : Nat := 2
def ENXIO_errno : Nat := 6
def EIO_errno : Nat := 5
def EAGAIN : Nat := 35
def EBUSY : Nat := 16
def EINVAL : Nat := 22
def ENOSPC : Nat := 28
def EPIPE : Nat := 32
def ENAMETOOLONG : Nat := 63
def EAUTH : Nat := 80
def ECANCELED : Nat := 89

/-! ## translate_status_to_error

Direct translation of `translate_status_to_error` (webdav_network.c).
The C function switches on `statusCode / 100` and, inside the 4xx arm,
on the exact status.  In the C source the `case 414:` arm assigns
`ENAMETOOLONG` but has no `break`, so control falls through into the
`case 423: case 424:` arm which overwrites the result with `EBUSY`;
the embedding reproduces that fall-through. -/

def translate_status_to_error (statusCode : Nat) : Nat :=
  if statusCode / 100 = 1 then
    ENOENT
  else if statusCode / 100 = 2 then
    0
  else if statusCode / 100 = 3 then
    ENOENT
  else if statusCode / 100 = 4 then
    if statusCode = 401 ∨ statusCode = 407 then EAUTH
    else if statusCode = 402 ∨ statusCode = 403 then EPERM
    else if statusCode = 404 ∨ statusCode = 409 ∨ statusCode = 410 then ENOENT
    else if statusCode = 414 ∨ statusCode = 423 ∨ statusCode = 424 then EBUSY
    else EINVAL
  else if statusCode / 100 = 5 then
    if statusCode = 507 then ENOSPC else ENOENT
  else
    EIO_errno

/-- C1: the spec says status 414 maps to the name-too-long error and
423/424 map to the busy error.  In the code the `case 414:` arm assigns
`ENAMETOOLONG` but lacks a `break` and falls through to the 423/424 arm,
so `translate_status_to_error 414` actually returns `EBUSY`, not
`ENAMETOOLONG`; 423 and 424 do return `EBUSY` as claimed. -/
theorem translate_status_414_falls_through_to_busy :
    translate_status_to_error 414 = EBUSY ∧
    translate_status_to_error 414 ≠ ENAMETOOLONG ∧
    translate_status_to_error 423 = EBUSY ∧
    translate_status_to_error 424 = EBUSY := by
  refine ⟨by decide, by decide, by decide, by decide⟩

/-- C9: the remainder of the status table.  Every 2xx status maps to
success (0); 402 and 403 map to `EPERM`; 404, 409 and 410 map to
`ENOENT`; 507 maps to `ENOSPC`; every other 4xx status (other than the
ones with a dedicated row: 401/407, 402/403, 404/409/410, 414, 423/424)
maps to `EINVAL`; and 1xx, 3xx and the remaining 5xx statuses map to
`ENOENT`. -/
theorem translate_status_table (s : Nat) :
    (s / 100 = 2 → translate_status_to_error s = 0) ∧
    ((s = 402 ∨ s = 403) → translate_status_to_error s = EPERM) ∧
    ((s = 404 ∨ s = 409 ∨ s = 410) → translate_status_to_error s = ENOENT) ∧
    (translate_status_to_error 507 = ENOSPC) ∧
    (s / 100 = 4 →
      s ∉ ([401, 402, 403, 404, 407, 409, 410, 414, 423, 424] : List Nat) →
      translate_status_to_error s = EINVAL) ∧
    ((s / 100 = 1 ∨ s / 100 = 3 ∨ (s / 100 = 5 ∧ s ≠ 507)) →
      translate_status_to_error s = ENOENT) := by
  refine ⟨?_, ?_, ?_, by decide, ?_, ?_⟩
  · intro h
    simp [translate_status_to_error, h]
  · rintro (rfl | rfl) <;> decide
  · rintro (rfl | rfl | rfl) <;> decide
  · intro h hmem
    simp only [List.mem_cons, List.not_mem_nil, or_false] at hmem
    push_neg at hmem
    obtain ⟨h401, h402, h403, h404, h407, h409, h410, h414, h423, h424⟩ := hmem
    simp [translate_status_to_error, h, h401, h402, h403, h404, h407, h409, h410,
      h414, h423, h424]
  · rintro (h | h | ⟨h, hne⟩)
    · simp [translate_status_to_error, h]
    · have h1 : s / 100 ≠ 1 := by omega
      have h2 : s / 100 ≠ 2 := by omega
      simp [translate_status_to_error, h, h1, h2]
    · have h1 : s / 100 ≠ 1 := by omega
      have h2 : s / 100 ≠ 2 := by omega
      have h3 : s / 100 ≠ 3 := by omega
      have h4 : s / 100 ≠ 4 := by omega
      simp [translate_status_to_error, h, h1, h2, h3, h4, hne]

/-- C9 witness: concrete instantiation of the status table at 422. -/
theorem translate_status_table_witness :
    translate_status_to_error 422 = EINVAL ∧ translate_status_to_error 204 = 0 :=
  ⟨(translate_status_table 422).2.2.2.2.1 (by decide) (by decide),
   (translate_status_table 204).1 (by decide)⟩

/-! ## Date/Token lexers (SkipCodedURL, SkipToken, SkipLWS)

C strings become `List Char` (the terminating NUL is the empty list);
a `const char *` pointer into the string becomes the suffix it points
at, so each lexer maps the input suffix to the suffix at which it
stops. -/

/-- SkipCodedURL (webdav_network.c): advance until the terminating
null or a `'>'` character and return that position. -/
def SkipCodedURL : List Char → List Char
  | [] => []
  | c :: rest => if c = '>' then c :: rest else SkipCodedURL rest

/-- The `switch` cases of SkipToken (webdav_network.c): DEL (0x7f) and
the rfc 2616 separator characters.  The braces are written by code
point (0x7b, 0x7d). -/
def sepSwitch (c : Char) : Bool :=
  c.toNat = 127 ∨
    c ∈ ['(', ')', '<', '>', '@', ',', ';', ':', '\\', '\"', '/',
         '[', ']', '?', '=', Char.ofNat 0x7b, Char.ofNat 0x7d, ' ', '\t']

/-- SkipToken (webdav_network.c): the C loop stops on any US-ASCII
control octet 0-31, on a DEL or separator `switch` case, and otherwise
skips the character. -/
def SkipToken : List Char → List Char
  | [] => []
  | c :: rest =>
    if c.toNat ≤ 31 then c :: rest
    else if sepSwitch c then c :: rest
    else SkipToken rest

/-- SkipLWS (webdav_network.c): skip SP and HT; skip a CR only when it
is followed by LF and then SP or HT (the C code peeks at `bytes[1]`
and `bytes[2]`; a missing character is the terminating null, which
fails the comparison); stop otherwise. -/
def SkipLWS : List Char → List Char
  | [] => []
  | c :: rest =>
    if c = ' ' ∨ c = '\t' then SkipLWS rest
    else if c = Char.ofNat 0x0d then
      match rest with
      | lf :: c2 :: rest2 =>
        if lf = Char.ofNat 0x0a ∧ (c2 = ' ' ∨ c2 = '\t') then SkipLWS rest2
        else c :: rest
      | _ => c :: rest
    else c :: rest

/-! Specification-side character classes, taken from the claim: a token
terminator is a CTL (octet 0-31 or 127) or one of the separators
`( ) < > @ , ; : \ " / [ ] ? = { } SP HT`. -/

def isTokenTerminator (c : Char) : Bool :=
  c.toNat ≤ 31 ∨ c.toNat = 127 ∨
    c ∈ ['(', ')', '<', '>', '@', ',', ';', ':', '\\', '\"', '/',
         '[', ']', '?', '=', Char.ofNat 0x7b, Char.ofNat 0x7d, ' ', '\t']

/-- A run of linear whitespace per RFC 2616 section 2.2 as the claim
reads it: SP and HT characters, where a CRLF may be consumed only when
it is immediately followed by SP or HT. -/
inductive LWSRun : List Char → Prop where
  | nil : LWSRun []
  | sp {r : List Char} : LWSRun r → LWSRun (' ' :: r)
  | ht {r : List Char} : LWSRun r → LWSRun ('\t' :: r)
  | crlf {c : Char} {r : List Char} : (c = ' ' ∨ c = '\t') → LWSRun (c :: r) →
      LWSRun (Char.ofNat 0x0d :: Char.ofNat 0x0a :: c :: r)

/-- Does a string begin with linear whitespace (SP, HT, or a CRLF
followed by SP or HT)? -/
def StartsWithLWS : List Char → Prop
  | c :: rest =>
    (c = ' ' ∨ c = '\t') ∨
      (c = Char.ofNat 0x0d ∧
        match rest with
        | lf :: c2 :: _ => lf = Char.ofNat 0x0a ∧ (c2 = ' ' ∨ c2 = '\t')
        | _ => False)
  | [] => False

theorem SkipCodedURL_characterization (s : List Char) :
    ∃ p, s = p ++ SkipCodedURL s ∧ (∀ c ∈ p, c ≠ '>') ∧
      (SkipCodedURL s = [] ∨ ∃ t, SkipCodedURL s = '>' :: t) := by
  induction s with
  | nil => exact ⟨[], by simp [SkipCodedURL]⟩
  | cons c rest ih =>
    by_cases h : c = '>'
    · exact ⟨[], by simp [SkipCodedURL, h], by simp, Or.inr ⟨rest, by simp [SkipCodedURL, h]⟩⟩
    · obtain ⟨p, hp, hnp, hend⟩ := ih
      refine ⟨c :: p, ?_, ?_, ?_⟩
      · simp [SkipCodedURL, h, ← hp]
      · intro x hx
        rcases List.mem_cons.mp hx with rfl | hx
        · exact h
        · exact hnp x hx
      · simpa [SkipCodedURL, h] using hend

theorem terminator_eq_ctl_or_sep (c : Char) :
    isTokenTerminator c = true ↔ (c.toNat ≤ 31 ∨ sepSwitch c = true) := by
  simp [isTokenTerminator, sepSwitch, or_assoc]

theorem SkipToken_characterization (s : List Char) :
    ∃ p, s = p ++ SkipToken s ∧ (∀ c ∈ p, isTokenTerminator c = false) ∧
      (SkipToken s = [] ∨ ∃ c t, SkipToken s = c :: t ∧ isTokenTerminator c = true) := by
  induction s with
  | nil => exact ⟨[], by simp [SkipToken]⟩
  | cons c rest ih =>
    by_cases h : isTokenTerminator c = true
    · have hskip : SkipToken (c :: rest) = c :: rest := by
        rcases (terminator_eq_ctl_or_sep c).mp h with h1 | h2
        · simp [SkipToken, h1]
        · by_cases h1 : c.toNat ≤ 31
          · simp [SkipToken, h1]
          · simp [SkipToken, h1, h2]
      exact ⟨[], by simp [hskip], by simp, Or.inr ⟨c, rest, by simp [hskip], h⟩⟩
    · obtain ⟨p, hp, hnp, hend⟩ := ih
      have hor := (terminator_eq_ctl_or_sep c).not.mp h
      push_neg at hor
      have h1 : ¬ (c.toNat ≤ 31) := by have := hor.1; omega
      have h2 : ¬ (sepSwitch c = true) := hor.2
      refine ⟨c :: p, ?_, ?_, ?_⟩
      · simp [SkipToken, h1, h2, ← hp]
      · intro x hx
        rcases List.mem_cons.mp hx with rfl | hx
        · simpa using h
        · exact hnp x hx
      · simpa [SkipToken, h1, h2] using hend

theorem SkipLWS_characterization (s : List Char) :
    ∃ p, s = p ++ SkipLWS s ∧ LWSRun p ∧ ¬ StartsWithLWS (SkipLWS s) := by
  induction s using SkipLWS.induct with
  | case1 =>
    refine ⟨[], by simp [SkipLWS], LWSRun.nil, ?_⟩
    show ¬ StartsWithLWS (SkipLWS [])
    simp [SkipLWS, StartsWithLWS]
  | case2 c rest hc ih =>
    obtain ⟨p, hp, hrun, hns⟩ := ih
    have hskip : SkipLWS (c :: rest) = SkipLWS rest := by
      rcases rest with _ | ⟨x, _ | ⟨y, t⟩⟩ <;> simp [SkipLWS, hc]
    refine ⟨c :: p, ?_, ?_, ?_⟩
    · rw [hskip, List.cons_append, ← hp]
    · rcases hc with rfl | rfl
      · exact LWSRun.sp hrun
      · exact LWSRun.ht hrun
    · rw [hskip]; exact hns
  | case3 lf c2 rest2 hlf hcr ih =>
    obtain ⟨p, hp, hrun, hns⟩ := ih
    have hskip : SkipLWS (Char.ofNat 13 :: lf :: c2 :: rest2) = SkipLWS rest2 := by
      simp [SkipLWS, hcr, hlf.1, hlf.2]
    refine ⟨Char.ofNat 13 :: lf :: c2 :: p, ?_, ?_, ?_⟩
    · rw [hskip]
      simp only [List.cons_append]
      rw [← hp]
    · rw [hlf.1]
      refine LWSRun.crlf hlf.2 ?_
      rcases hlf.2 with rfl | rfl
      · exact LWSRun.sp hrun
      · exact LWSRun.ht hrun
    · rw [hskip]; exact hns
  | case4 lf c2 rest2 hnlf hcr =>
    have hskip : SkipLWS (Char.ofNat 13 :: lf :: c2 :: rest2) =
        Char.ofNat 13 :: lf :: c2 :: rest2 := by
      simp [SkipLWS, hcr, hnlf]
    refine ⟨[], by simp [hskip], LWSRun.nil, ?_⟩
    rw [hskip]
    intro hst
    rcases hst with h1 | h2
    · exact hcr h1
    · exact hnlf h2.2
  | case5 rest hnm hcr =>
    have hskip : SkipLWS (Char.ofNat 13 :: rest) = Char.ofNat 13 :: rest := by
      rcases rest with _ | ⟨x, _ | ⟨y, t⟩⟩
      · simp [SkipLWS, hcr]
      · simp [SkipLWS, hcr]
      · exact absurd rfl (hnm x y t)
    refine ⟨[], by simp [hskip], LWSRun.nil, ?_⟩
    rw [hskip]
    intro hst
    rcases hst with h1 | h2
    · exact hcr h1
    · rcases rest with _ | ⟨x, _ | ⟨y, t⟩⟩
      · simp [StartsWithLWS] at h2
      · simp [StartsWithLWS] at h2
      · exact absurd rfl (hnm x y t)
  | case6 c rest hc hcr =>
    have hskip : SkipLWS (c :: rest) = c :: rest := by
      rcases rest with _ | ⟨x, _ | ⟨y, t⟩⟩ <;> simp [SkipLWS, hc, hcr]
    refine ⟨[], by simp [hskip], LWSRun.nil, ?_⟩
    rw [hskip]
    intro hst
    rcases hst with h1 | h2
    · exact hc h1
    · exact hcr h2.1

/-- C7: the three header lexers.  SkipToken stops exactly at the first
CTL (octet 0-31 or 127) or separator character (or the end of the
string); SkipLWS consumes exactly a run of linear whitespace, where a
CRLF is consumed only when immediately followed by SP or HT; and
SkipCodedURL stops exactly at the first `'>'` (or the end of the
string). -/
theorem skip_lexers_characterization :
    (∀ s : List Char, ∃ p, s = p ++ SkipToken s ∧
      (∀ c ∈ p, isTokenTerminator c = false) ∧
      (SkipToken s = [] ∨ ∃ c t, SkipToken s = c :: t ∧ isTokenTerminator c = true)) ∧
    (∀ s : List Char, ∃ p, s = p ++ SkipLWS s ∧ LWSRun p ∧
      ¬ StartsWithLWS (SkipLWS s)) ∧
    (∀ s : List Char, ∃ p, s = p ++ SkipCodedURL s ∧ (∀ c ∈ p, c ≠ '>') ∧
      (SkipCodedURL s = [] ∨ ∃ t, SkipCodedURL s = '>' :: t)) :=
  ⟨SkipToken_characterization, SkipLWS_characterization, SkipCodedURL_characterization⟩

/-! ## ParseDAVLevel

Translation of `ParseDAVLevel` (webdav_network.c).  The body of the C
`while` loop is split into `davItemStep` (the Coded-URL / token
branch, including the `dav_level` update) and `davNext` (the trailing
LWS and comma handling, returning `none` when the loop `break`s).
The loop itself runs on fuel; every iteration of the C loop consumes
at least one character, so `length + 1` units suffice, and the
accumulator lemma below is proved for every fuel value. -/

/-- The comma-skipping inner loop of ParseDAVLevel. -/
def skipCommas : List Char → List Char
  | [] => []
  | c :: rest => if c = ',' then skipCommas rest else c :: rest

/-- One Coded-URL / token item of the DAV field-value: either eat a
Coded-URL (skip `'<'`, scan to `'>'`, skip the `'>'` when present), or
eat a token and, when the token is exactly one character long, raise
`dav_level` for `'1'` or `'2'`. -/
def davItemStep (c : Char) (rest : List Char) (level : Nat) : List Char × Nat :=
  if c = '<' then
    (match SkipCodedURL rest with
     | [] => []
     | _ :: r => r,
     level)
  else
    let after := SkipToken (c :: rest)
    (after,
     if (c :: rest).length - after.length = 1 then
       if c = '1' ∧ level < 1 then 1
       else if c = '2' ∧ level < 2 then 2
       else level
     else level)

/-- After an item: skip LWS; at end of string continue (the loop head
then exits); at a comma skip the run of commas and continue; at any
other character break out of the loop (`none`). -/
def davNext (fv : List Char) : Option (List Char) :=
  match SkipLWS fv with
  | [] => some []
  | d :: rest2 => if d = ',' then some (skipCommas (d :: rest2)) else none

/-- The main `while` loop of ParseDAVLevel. -/
def ParseDAVLoop : Nat → List Char → Nat → Nat
  | 0, _, level => level
  | fuel + 1, fv, level =>
    match SkipLWS fv with
    | [] => level
    | c :: rest =>
      let st := davItemStep c rest level
      match davNext st.1 with
      | some fv2 => ParseDAVLoop fuel fv2 st.2
      | none => st.2

/-- ParseDAVLevel (webdav_network.c): `dav_level` starts at 0; a
missing DAV header leaves it 0; otherwise the field-value is scanned
by the loop. -/
def ParseDAVLevel (davHeader : Option (List Char)) : Nat :=
  match davHeader with
  | none => 0
  | some s => ParseDAVLoop (s.length + 1) s 0

theorem davItemStep_acc (c : Char) (rest : List Char) (level : Nat) :
    (davItemStep c rest level).1 = (davItemStep c rest 0).1 ∧
    (davItemStep c rest level).2 = max level (davItemStep c rest 0).2 := by
  by_cases hlt : c = '<'
  · simp [davItemStep, hlt]
  · refine ⟨by simp [davItemStep, hlt], ?_⟩
    by_cases h1 : c = '1'
    · subst h1
      by_cases hlen : rest.length + 1 - (SkipToken ('1' :: rest)).length = 1
      · rcases Nat.lt_or_ge level 1 with h | h
        · simp [davItemStep, hlen, h]
          omega
        · simp [davItemStep, hlen, Nat.not_lt.mpr h]
          omega
      · simp [davItemStep, hlen]
    · by_cases h2 : c = '2'
      · subst h2
        by_cases hlen : rest.length + 1 - (SkipToken ('2' :: rest)).length = 1
        · rcases Nat.lt_or_ge level 2 with h | h
          · simp [davItemStep, hlen, h]
            omega
          · simp [davItemStep, hlen, Nat.not_lt.mpr h]
            omega
        · simp [davItemStep, hlen]
      · by_cases hlen : rest.length + 1 - (SkipToken (c :: rest)).length = 1
        · simp [davItemStep, hlt, hlen, h1, h2]
        · simp [davItemStep, hlt, hlen]

theorem ParseDAVLoop_acc (fuel : Nat) : ∀ fv level,
    ParseDAVLoop fuel fv level = max level (ParseDAVLoop fuel fv 0) := by
  induction fuel with
  | zero => intro fv level; simp [ParseDAVLoop]
  | succ fuel ih =>
    intro fv level
    simp only [ParseDAVLoop]
    cases hfv : SkipLWS fv with
    | nil => simp
    | cons c rest =>
      simp only []
      have hstep := davItemStep_acc c rest level
      rw [hstep.1]
      cases hnext : davNext (davItemStep c rest 0).1 with
      | some fv2 =>
        simp only []
        rw [hstep.2, ih fv2 (max level (davItemStep c rest 0).2),
          ih fv2 (davItemStep c rest 0).2]
        omega
      | none =>
        simp only []
        exact hstep.2

/-- C5: ParseDAVLevel computes the maximum of the levels 1 and 2 seen
among the single-character tokens of the DAV header (the accumulator
lemma: the loop result is the max of the level seen so far and the
level computed from scratch), and on the spec's test vectors returns
1, 2, 2, 2, 1, and 0 for the empty or absent header. -/
theorem ParseDAVLevel_max_and_vectors :
    (∀ fuel fv level, ParseDAVLoop fuel fv level = max level (ParseDAVLoop fuel fv 0)) ∧
    ParseDAVLevel (some ("1".toList)) = 1 ∧
    ParseDAVLevel (some ("1, 2".toList)) = 2 ∧
    ParseDAVLevel (some ("1,2,<http://x/>".toList)) = 2 ∧
    ParseDAVLevel (some ("2,1".toList)) = 2 ∧
    ParseDAVLevel (some ("<http://x/>,1".toList)) = 1 ∧
    ParseDAVLevel (some []) = 0 ∧
    ParseDAVLevel none = 0 :=
  ⟨ParseDAVLoop_acc, by decide, by decide, by decide, by decide, by decide,
   by decide, by decide⟩

/-! ## HandleSSLErrors

`gSSLPropertiesDict` is modelled as `Option SSLBag`: `none` until the
dictionary is first created, then presence flags for the five entries
the code ever writes (each entry is only ever written with one fixed
value, so presence captures the whole state).  The certificate
confirmation helper (`ConfirmCertificate`, a UI subprocess) becomes
the boolean input `confirmAccept`, and the outcome records whether it
was invoked.  SecureTransport and CFStream error constants are the SDK
header values (Security/SecureTransport.h, CFNetwork). -/

def errSSLProtocol : Int := -9800
def errSSLXCertChainInvalid : Int := -9807
def errSSLBadCert : Int := -9808
def errSSLCrypto : Int := -9809
def errSSLUnknownRootCert : Int := -9812
def errSSLNoRootCert : Int := -9813
def errSSLCertExpired : Int := -9814
def errSSLCertNotYetValid : Int := -9815
def errSSLClosedNoNotify : Int := -9816
def errSSLPeerBadCert : Int := -9825
def errSSLIllegalParam : Int := -9830
def errSSLPeerAccessDenied : Int := -9832
def errSSLHostNameMismatch : Int := -9843
def errSSLLast : Int := -9849

def kCFStreamErrorDomainPOSIX : Int := 1
def kCFStreamErrorDomainSSL : Int := 3

/-- Presence flags for the SSL property dictionary entries written by
HandleSSLErrors: kCFStreamSSLLevel, kCFStreamSSLAllowsExpiredCertificates,
kCFStreamSSLAllowsExpiredRoots, kCFStreamSSLValidatesCertificateChain
(written `false`), kCFStreamSSLAllowsAnyRoot. -/
structure SSLBag where
  levelSet : Bool
  allowsExpiredCertsSet : Bool
  allowsExpiredRootsSet : Bool
  validatesChainCleared : Bool
  allowsAnyRootSet : Bool
deriving DecidableEq, Repr

def emptySSLBag : SSLBag := ⟨false, false, false, false, false⟩

/-- The protocol/handshake ranges of the TLS-to-SSLv3 fallback test in
HandleSSLErrors (webdav_network.c). -/
def sslFallbackRange (error : Int) : Bool :=
  (error ≤ errSSLProtocol ∧ error > errSSLXCertChainInvalid) ∨
  (error ≤ errSSLCrypto ∧ error > errSSLUnknownRootCert) ∨
  (error ≤ errSSLClosedNoNotify ∧ error > errSSLPeerBadCert) ∨
  (error = errSSLIllegalParam) ∨
  (error ≤ errSSLPeerAccessDenied ∧ error > errSSLLast)

structure SSLOutcome where
  result : Nat
  bag : Option SSLBag
  uiAsked : Bool
deriving DecidableEq, Repr

/-- HandleSSLErrors (webdav_network.c).  Returns EAGAIN when the whole
transaction should be retried, ECANCELED when the user declined the
certificate UI, and EIO_errno otherwise (including non-SSL stream errors). -/
def HandleSSLErrors (domain error : Int) (confirmAccept : Bool)
    (bag0 : Option SSLBag) : SSLOutcome :=
  if domain = kCFStreamErrorDomainSSL then
    let dict := bag0.getD emptySSLBag
    if ¬ dict.levelSet ∧ sslFallbackRange error then
      ⟨EAGAIN, some { dict with levelSet := true }, false⟩
    else if error = errSSLCertExpired ∨ error = errSSLCertNotYetValid then
      if ¬ dict.allowsExpiredCertsSet then
        if confirmAccept then
          ⟨EAGAIN, some { dict with allowsExpiredCertsSet := true,
                                    allowsExpiredRootsSet := true }, true⟩
        else ⟨ECANCELED, some dict, true⟩
      else ⟨EIO_errno, some dict, false⟩
    else if error = errSSLBadCert ∨ error = errSSLXCertChainInvalid ∨
        error = errSSLHostNameMismatch then
      if ¬ dict.validatesChainCleared then
        if confirmAccept then
          ⟨EAGAIN, some { dict with validatesChainCleared := true }, true⟩
        else ⟨ECANCELED, some dict, true⟩
      else ⟨EIO_errno, some dict, false⟩
    else if error = errSSLUnknownRootCert ∨ error = errSSLNoRootCert then
      if ¬ dict.allowsAnyRootSet then
        if confirmAccept then
          ⟨EAGAIN, some { dict with allowsAnyRootSet := true }, true⟩
        else ⟨ECANCELED, some dict, true⟩
      else ⟨EIO_errno, some dict, false⟩
    else ⟨EIO_errno, some dict, false⟩
  else ⟨EIO_errno, bag0, false⟩

/-- The three certificate fault classes as the claim groups them. -/
def expiredClass (e : Int) : Prop :=
  e = errSSLCertExpired ∨ e = errSSLCertNotYetValid

def chainClass (e : Int) : Prop :=
  e = errSSLBadCert ∨ e = errSSLXCertChainInvalid ∨ e = errSSLHostNameMismatch

def rootClass (e : Int) : Prop :=
  e = errSSLUnknownRootCert ∨ e = errSSLNoRootCert

/-- Entry-wise ordering on the SSL property dictionary: every entry
present on the left is still present on the right. -/
def bagLE : Option SSLBag → Option SSLBag → Prop
  | none, _ => True
  | some _, none => False
  | some x, some y =>
    (x.levelSet = true → y.levelSet = true) ∧
    (x.allowsExpiredCertsSet = true → y.allowsExpiredCertsSet = true) ∧
    (x.allowsExpiredRootsSet = true → y.allowsExpiredRootsSet = true) ∧
    (x.validatesChainCleared = true → y.validatesChainCleared = true) ∧
    (x.allowsAnyRootSet = true → y.allowsAnyRootSet = true)

theorem HandleSSLErrors_bag_monotone (domain error : Int) (confirm : Bool)
    (bag0 : Option SSLBag) :
    bagLE bag0 (HandleSSLErrors domain error confirm bag0).bag := by
  cases bag0 with
  | none =>
    simp only [HandleSSLErrors]
    split_ifs <;> simp [bagLE]
  | some x =>
    simp only [HandleSSLErrors, Option.getD]
    split_ifs <;> simp [bagLE]

/-- C6 counterexample input: the chain-validation entry is already set
(certificate-chain validation disabled) and the SSL level is not yet
pinned; a hostname-mismatch error — a fault of the chain class — then
takes the protocol-fallback branch: it returns EAGAIN (RETRY), not an
io error, and writes a new (level) entry into the bag. -/
theorem ssl_hostname_mismatch_refires_fallback :
    chainClass errSSLHostNameMismatch ∧
    (HandleSSLErrors kCFStreamErrorDomainSSL errSSLHostNameMismatch false
      (some ⟨false, false, false, true, false⟩)).result = EAGAIN ∧
    EAGAIN ≠ EIO_errno ∧
    (HandleSSLErrors kCFStreamErrorDomainSSL errSSLHostNameMismatch false
      (some ⟨false, false, false, true, false⟩)).bag =
      some ⟨true, false, false, true, false⟩ := by
  refine ⟨Or.inr (Or.inr rfl), by decide, by decide, by decide⟩

theorem HandleSSLErrors_same_class_eio (bag : SSLBag) (error : Int) (confirm : Bool)
    (hclass : (expiredClass error ∧ bag.allowsExpiredCertsSet = true) ∨
              (chainClass error ∧ bag.validatesChainCleared = true) ∨
              (rootClass error ∧ bag.allowsAnyRootSet = true) ∨
              (sslFallbackRange error = true ∧ bag.levelSet = true))
    (hfb : ¬ (bag.levelSet = false ∧ sslFallbackRange error = true))
    (hhn : error = errSSLHostNameMismatch → bag.validatesChainCleared = true) :
    HandleSSLErrors kCFStreamErrorDomainSSL error confirm (some bag) =
      ⟨EIO_errno, some bag, false⟩ := by
  rcases hclass with ⟨hcls, hset⟩ | ⟨hcls, hset⟩ | ⟨hcls, hset⟩ | ⟨hrange, hlevel⟩
  · rcases hcls with rfl | rfl <;>
      simp [HandleSSLErrors, sslFallbackRange, errSSLProtocol, errSSLXCertChainInvalid,
        errSSLBadCert, errSSLCrypto, errSSLUnknownRootCert, errSSLNoRootCert,
        errSSLCertExpired, errSSLCertNotYetValid, errSSLClosedNoNotify,
        errSSLPeerBadCert, errSSLIllegalParam, errSSLPeerAccessDenied,
        errSSLHostNameMismatch, errSSLLast, kCFStreamErrorDomainSSL, hset]
  · rcases hcls with rfl | rfl | rfl <;>
      simp [HandleSSLErrors, sslFallbackRange, errSSLProtocol, errSSLXCertChainInvalid,
        errSSLBadCert, errSSLCrypto, errSSLUnknownRootCert, errSSLNoRootCert,
        errSSLCertExpired, errSSLCertNotYetValid, errSSLClosedNoNotify,
        errSSLPeerBadCert, errSSLIllegalParam, errSSLPeerAccessDenied,
        errSSLHostNameMismatch, errSSLLast, kCFStreamErrorDomainSSL, hset] <;>
      simp_all [sslFallbackRange, errSSLProtocol, errSSLXCertChainInvalid,
        errSSLCrypto, errSSLUnknownRootCert, errSSLClosedNoNotify,
        errSSLPeerBadCert, errSSLIllegalParam, errSSLPeerAccessDenied,
        errSSLHostNameMismatch, errSSLLast]
  · rcases hcls with rfl | rfl <;>
      simp [HandleSSLErrors, sslFallbackRange, errSSLProtocol, errSSLXCertChainInvalid,
        errSSLBadCert, errSSLCrypto, errSSLUnknownRootCert, errSSLNoRootCert,
        errSSLCertExpired, errSSLCertNotYetValid, errSSLClosedNoNotify,
        errSSLPeerBadCert, errSSLIllegalParam, errSSLPeerAccessDenied,
        errSSLHostNameMismatch, errSSLLast, kCFStreamErrorDomainSSL, hset]
  · have hr : (error ≤ -9800 ∧ error > -9807) ∨ (error ≤ -9809 ∧ error > -9812) ∨
        (error ≤ -9816 ∧ error > -9825) ∨ error = -9830 ∨
        (error ≤ -9832 ∧ error > -9849) := by
      simpa [sslFallbackRange, errSSLProtocol, errSSLXCertChainInvalid, errSSLCrypto,
        errSSLUnknownRootCert, errSSLClosedNoNotify, errSSLPeerBadCert,
        errSSLIllegalParam, errSSLPeerAccessDenied, errSSLLast] using hrange
    by_cases hhm : error = errSSLHostNameMismatch
    · have hchain := hhn hhm
      subst hhm
      simp [HandleSSLErrors, errSSLBadCert, errSSLXCertChainInvalid,
        errSSLCertExpired, errSSLCertNotYetValid, errSSLHostNameMismatch,
        kCFStreamErrorDomainSSL, hlevel, hchain]
    · have hne : error ≠ errSSLCertExpired ∧ error ≠ errSSLCertNotYetValid ∧
          error ≠ errSSLBadCert ∧ error ≠ errSSLXCertChainInvalid ∧
          error ≠ errSSLUnknownRootCert ∧ error ≠ errSSLNoRootCert := by
        have hx : error ≠ (-9814 : Int) ∧ error ≠ (-9815 : Int) ∧
            error ≠ (-9808 : Int) ∧ error ≠ (-9807 : Int) ∧
            error ≠ (-9812 : Int) ∧ error ≠ (-9813 : Int) := by
          rcases hr with ⟨h, h2⟩ | ⟨h, h2⟩ | ⟨h, h2⟩ | h | ⟨h, h2⟩ <;>
            exact ⟨by omega, by omega, by omega, by omega, by omega, by omega⟩
        exact hx
      obtain ⟨h14, h15, h08, h07, h12, h13⟩ := hne
      simp [HandleSSLErrors, kCFStreamErrorDomainSSL, hlevel, h14, h15, h08, h07,
        h12, h13, hhm]

/-- C6 amended: once the SSL property bag holds the entry for a fault
class, a later stream error of the same fault class does not invoke
the certificate-confirmation UI again and does not return RETRY but an
io error with the bag unchanged — except for errSSLHostNameMismatch,
which lies both in the certificate-chain class and in the
protocol-fallback ranges: while the SSL level is not yet pinned it
takes the fallback branch (pins the level and returns RETRY without
asking the UI), and with the level pinned but the chain entry unset it
asks the UI.  The exception is excluded by the two extra hypotheses.
Bag entries, once set, are never cleared (second conjunct). -/
theorem HandleSSLErrors_class_monotonicity :
    (∀ (bag : SSLBag) (error : Int) (confirm : Bool),
      ((expiredClass error ∧ bag.allowsExpiredCertsSet = true) ∨
       (chainClass error ∧ bag.validatesChainCleared = true) ∨
       (rootClass error ∧ bag.allowsAnyRootSet = true) ∨
       (sslFallbackRange error = true ∧ bag.levelSet = true)) →
      ¬ (bag.levelSet = false ∧ sslFallbackRange error = true) →
      (error = errSSLHostNameMismatch → bag.validatesChainCleared = true) →
      (HandleSSLErrors kCFStreamErrorDomainSSL error confirm (some bag)).result = EIO_errno ∧
      (HandleSSLErrors kCFStreamErrorDomainSSL error confirm (some bag)).bag = some bag ∧
      (HandleSSLErrors kCFStreamErrorDomainSSL error confirm (some bag)).uiAsked = false) ∧
    (∀ (domain error : Int) (confirm : Bool) (bag0 : Option SSLBag),
      bagLE bag0 (HandleSSLErrors domain error confirm bag0).bag) := by
  constructor
  · intro bag error confirm hclass hfb hhn
    rw [HandleSSLErrors_same_class_eio bag error confirm hclass hfb hhn]
    exact ⟨rfl, rfl, rfl⟩
  · exact HandleSSLErrors_bag_monotone

/-- C6 witness: a second expired-certificate fault with the
expired-certs entry already present returns EIO_errno with the bag
unchanged and no UI prompt. -/
theorem HandleSSLErrors_class_monotonicity_witness :
    (HandleSSLErrors kCFStreamErrorDomainSSL errSSLCertExpired true
      (some ⟨false, true, true, false, false⟩)).result = EIO_errno ∧
    (HandleSSLErrors kCFStreamErrorDomainSSL errSSLCertExpired true
      (some ⟨false, true, true, false, false⟩)).bag =
      some ⟨false, true, true, false, false⟩ ∧
    (HandleSSLErrors kCFStreamErrorDomainSSL errSSLCertExpired true
      (some ⟨false, true, true, false, false⟩)).uiAsked = false :=
  HandleSSLErrors_class_monotonicity.1 ⟨false, true, true, false, false⟩
    errSSLCertExpired true (Or.inl ⟨Or.inl rfl, rfl⟩) (by decide) (by decide)

/-! ## EPIPE retry steps

Modelled from the spec: the connection-state constants come from
webdavd.h, which is not under src/; only their distinctness matters. -/

def WEBDAV_CONNECTION_UP : Nat := 1
def WEBDAV_CONNECTION_DOWN : Nat := 0

/-- Result of one stream-error handling block: the errno result, the
updated `*retryTransaction` flag, and the updated connection state. -/
structure ErrorStep where
  result : Nat
  retry : Bool
  conn : Nat
deriving DecidableEq, Repr

/-- The `CFReadStreamOpen` failure block of open_stream_for_transaction
(webdav_network.c), after HandleSSLErrors returned something other than
EAGAIN: on POSIX EPIPE with the retry flag still true, clear the flag
and return EAGAIN; otherwise mark the connection down and return
ENXIO_errno. -/
def open_stream_error_block (retry : Bool) (domain err : Int) (conn : Nat) : ErrorStep :=
  if retry ∧ domain = kCFStreamErrorDomainPOSIX ∧ err = EPIPE then
    ⟨EAGAIN, false, conn⟩
  else
    ⟨ENXIO_errno, retry, WEBDAV_CONNECTION_DOWN⟩

/-- The read-error block of stream_get_transaction (webdav_network.c);
textually the same handling as the open block. -/
def stream_get_read_error_block (retry : Bool) (domain err : Int) (conn : Nat) : ErrorStep :=
  if retry ∧ domain = kCFStreamErrorDomainPOSIX ∧ err = EPIPE then
    ⟨EAGAIN, false, conn⟩
  else
    ⟨ENXIO_errno, retry, WEBDAV_CONNECTION_DOWN⟩

/-- The read-error block of stream_transaction_from_file
(webdav_network.c). -/
def from_file_read_error_block (retry : Bool) (domain err : Int) (conn : Nat) : ErrorStep :=
  if retry ∧ domain = kCFStreamErrorDomainPOSIX ∧ err = EPIPE then
    ⟨EAGAIN, false, conn⟩
  else
    ⟨ENXIO_errno, retry, WEBDAV_CONNECTION_DOWN⟩

/-- The read-error block of stream_transaction (webdav_network.c): it
first routes the error through HandleSSLErrors; only when that returns
neither EAGAIN nor ECANCELED does the EPIPE retry logic run.  Returns
the error step together with the updated SSL bag and whether the
certificate UI was asked. -/
def stream_transaction_read_error_block (retry : Bool) (domain err : Int)
    (confirm : Bool) (bag0 : Option SSLBag) (conn : Nat) :
    ErrorStep × Option SSLBag × Bool :=
  let ssl := HandleSSLErrors domain err confirm bag0
  if ssl.result ≠ EAGAIN then
    if ssl.result ≠ ECANCELED then
      if retry ∧ domain = kCFStreamErrorDomainPOSIX ∧ err = EPIPE then
        (⟨EAGAIN, false, conn⟩, ssl.bag, ssl.uiAsked)
      else
        (⟨ENXIO_errno, retry, WEBDAV_CONNECTION_DOWN⟩, ssl.bag, ssl.uiAsked)
    else (⟨ssl.result, retry, conn⟩, ssl.bag, ssl.uiAsked)
  else (⟨ssl.result, retry, conn⟩, ssl.bag, ssl.uiAsked)

/-- C2: in every transaction variant (the shared stream-open block and
the three read loops), a POSIX EPIPE with the retry flag still true
clears the flag and returns EAGAIN (RETRY), leaving the connection
state alone; with the flag already false (the second EPIPE of the same
transaction) it is terminal: the connection state is set down and the
result is ENXIO_errno, the io error this code base uses for transport
failures.  In stream_transaction the POSIX-domain error passes through
HandleSSLErrors untouched (no UI, bag unchanged).  The final conjunct
chains the two steps: a first EPIPE yields EAGAIN and clears the flag,
and feeding the cleared flag into a second EPIPE yields ENXIO_errno with the
connection down. -/
theorem epipe_retries_exactly_once :
    (∀ conn,
      open_stream_error_block true kCFStreamErrorDomainPOSIX (EPIPE : Int) conn =
        ⟨EAGAIN, false, conn⟩ ∧
      open_stream_error_block false kCFStreamErrorDomainPOSIX (EPIPE : Int) conn =
        ⟨ENXIO_errno, false, WEBDAV_CONNECTION_DOWN⟩ ∧
      stream_get_read_error_block true kCFStreamErrorDomainPOSIX (EPIPE : Int) conn =
        ⟨EAGAIN, false, conn⟩ ∧
      stream_get_read_error_block false kCFStreamErrorDomainPOSIX (EPIPE : Int) conn =
        ⟨ENXIO_errno, false, WEBDAV_CONNECTION_DOWN⟩ ∧
      from_file_read_error_block true kCFStreamErrorDomainPOSIX (EPIPE : Int) conn =
        ⟨EAGAIN, false, conn⟩ ∧
      from_file_read_error_block false kCFStreamErrorDomainPOSIX (EPIPE : Int) conn =
        ⟨ENXIO_errno, false, WEBDAV_CONNECTION_DOWN⟩) ∧
    (∀ conn confirm bag0,
      stream_transaction_read_error_block true kCFStreamErrorDomainPOSIX (EPIPE : Int)
        confirm bag0 conn = (⟨EAGAIN, false, conn⟩, bag0, false) ∧
      stream_transaction_read_error_block false kCFStreamErrorDomainPOSIX (EPIPE : Int)
        confirm bag0 conn = (⟨ENXIO_errno, false, WEBDAV_CONNECTION_DOWN⟩, bag0, false)) ∧
    (∀ conn,
      (open_stream_error_block true kCFStreamErrorDomainPOSIX (EPIPE : Int) conn).result
        = EAGAIN ∧
      (open_stream_error_block true kCFStreamErrorDomainPOSIX (EPIPE : Int) conn).retry
        = false ∧
      open_stream_error_block
        (open_stream_error_block true kCFStreamErrorDomainPOSIX (EPIPE : Int) conn).retry
        kCFStreamErrorDomainPOSIX (EPIPE : Int)
        (open_stream_error_block true kCFStreamErrorDomainPOSIX (EPIPE : Int) conn).conn =
        ⟨ENXIO_errno, false, WEBDAV_CONNECTION_DOWN⟩) := by
  refine ⟨fun conn => ⟨rfl, rfl, rfl, rfl, rfl, rfl⟩, fun conn confirm bag0 => ⟨?_, ?_⟩,
    fun conn => ⟨rfl, rfl, rfl⟩⟩ <;>
    simp [stream_transaction_read_error_block, HandleSSLErrors,
      kCFStreamErrorDomainPOSIX, kCFStreamErrorDomainSSL, EIO_errno, EAGAIN, ECANCELED,
      ENXIO_errno, EPIPE]

/-! ## stream_get_transaction

The response-to-cache-file transaction variant.  The cache file (the
node's `file_fd`) is a record of chflags bits, byte content and file
position; the syscalls used by the C code (`fchflags`, `ftruncate` to
0, `lseek` to 0/SEEK_SET or 0/SEEK_END, `write`) become pure state
updates.  The read loop (accumulate up to `first_read_len` bytes, then
check whether the stream is at end) is summarized by a `ReadPhase`
input: either the accumulated bytes plus the at-end check, or a stream
error.  The response header, the enqueue result and the Connection
header are further inputs. -/

/-- Default of the `first_read_len` global (get_first_read_len falls
back to 4096 when the page-size sysctl fails). -/
def first_read_len : Nat := 4096

/-- UF_NODUMP chflags bit (sys/stat.h). -/
def UF_NODUMP : Nat := 1

/-! Modelled from the spec: the download-status constants come from
webdavd.h, which is not under src/; only their distinctness matters. -/

def WEBDAV_DOWNLOAD_NEVER : Nat := 0
def WEBDAV_DOWNLOAD_IN_PROGRESS : Nat := 1
def WEBDAV_DOWNLOAD_FINISHED : Nat := 2

structure CacheFile where
  flags : Nat
  data : List Nat
  pos : Nat
deriving DecidableEq, Repr

def fchflagsOp (f : CacheFile) (newFlags : Nat) : CacheFile :=
  { f with flags := newFlags }

def ftruncate0 (f : CacheFile) : CacheFile :=
  { f with data := [] }

def lseekSet0 (f : CacheFile) : CacheFile :=
  { f with pos := 0 }

def lseekEnd (f : CacheFile) : CacheFile :=
  { f with pos := f.data.length }

def fileWrite (f : CacheFile) (buf : List Nat) : CacheFile :=
  { f with
    data := f.data.take f.pos ++ List.replicate (f.pos - f.data.length) 0 ++ buf ++
      f.data.drop (f.pos + buf.length),
    pos := f.pos + buf.length }

structure NodeState where
  file : CacheFile
  file_status : Nat
deriving DecidableEq, Repr

/-- Summary of the first-read loop: either up to `first_read_len`
accumulated bytes plus whether the stream still had bytes after them,
or a stream error. -/
inductive ReadPhase where
  | ok (bytes : List Nat) (moreRemain : Bool)
  | fail (domain err : Int)
deriving DecidableEq, Repr

structure GetResult where
  result : Nat
  node : NodeState
  retry : Bool
  conn : Nat
  enqueued : Nat
  slotReleased : Bool
  streamClosed : Bool
deriving DecidableEq, Repr

/-- stream_get_transaction (webdav_network.c).  `enqueued` counts the
calls to requestqueue_enqueue_download, `slotReleased` records whether
release_ReadStreamRec ran on this path, and `streamClosed` whether the
slot's read stream was closed. -/
def stream_get_transaction (suppressAllUI : Bool) (conn : Nat) (retry : Bool)
    (openError : Option Nat) (read : ReadPhase) (statusCode : Nat)
    (connectionCloseHeader : Bool) (enqueueError : Option Nat)
    (node : NodeState) : GetResult :=
  if suppressAllUI ∧ conn ≠ WEBDAV_CONNECTION_UP then
    ⟨EIO_errno, node, retry, conn, 0, false, false⟩
  else
    match openError with
    | some e => ⟨if e = 0 then EIO_errno else e, node, retry, conn, 0, false, false⟩
    | none =>
      match read with
      | .fail domain err =>
        let st := stream_get_read_error_block retry domain err conn
        ⟨st.result, node, st.retry, st.conn, 0, true, true⟩
      | .ok bytes moreRemain =>
        let backgroundRead := decide (first_read_len ≤ bytes.length) && moreRemain
        let node1 :=
          if statusCode = 200 then
            { node with file :=
                fileWrite (lseekSet0 (ftruncate0 (fchflagsOp node.file 0))) bytes }
          else if statusCode = 206 then
            { node with file := fileWrite (lseekEnd (fchflagsOp node.file 0)) bytes }
          else node
        let background_load :=
          if statusCode = 200 ∨ statusCode = 206 then backgroundRead else false
        if background_load then
          let node2 :=
            { node1 with
              file := fchflagsOp node1.file UF_NODUMP,
              file_status := WEBDAV_DOWNLOAD_IN_PROGRESS }
          match enqueueError with
          | some e =>
            ⟨if e = 0 then EIO_errno else e, node2, retry, WEBDAV_CONNECTION_UP, 1, true, true⟩
          | none => ⟨0, node2, retry, WEBDAV_CONNECTION_UP, 1, false, false⟩
        else
          let node2 := { node1 with file_status := WEBDAV_DOWNLOAD_FINISHED }
          ⟨0, node2, retry, WEBDAV_CONNECTION_UP, 0, true, connectionCloseHeader⟩

/-- C4: how the cache-file write depends on the response status.  On
200 the file is truncated and the buffered bytes become the whole
content; on 206 the buffered bytes are appended at EOF; on any other
status (304 included) the cache file is untouched and the download
status is set to finished. -/
theorem stream_get_status_cases (bytes : List Nat) (moreRemain : Bool)
    (statusCode : Nat) (hdr : Bool) (enqErr : Option Nat) (node : NodeState)
    (retry : Bool) :
    (statusCode = 200 →
      (stream_get_transaction false WEBDAV_CONNECTION_UP retry none
        (ReadPhase.ok bytes moreRemain) statusCode hdr enqErr node).node.file.data =
        bytes) ∧
    (statusCode = 206 →
      (stream_get_transaction false WEBDAV_CONNECTION_UP retry none
        (ReadPhase.ok bytes moreRemain) statusCode hdr enqErr node).node.file.data =
        node.file.data ++ bytes) ∧
    (statusCode ≠ 200 → statusCode ≠ 206 →
      (stream_get_transaction false WEBDAV_CONNECTION_UP retry none
        (ReadPhase.ok bytes moreRemain) statusCode hdr enqErr node).node.file =
        node.file ∧
      (stream_get_transaction false WEBDAV_CONNECTION_UP retry none
        (ReadPhase.ok bytes moreRemain) statusCode hdr enqErr node).node.file_status =
        WEBDAV_DOWNLOAD_FINISHED) := by
  refine ⟨?_, ?_, ?_⟩
  · rintro rfl
    simp only [stream_get_transaction, WEBDAV_CONNECTION_UP]
    norm_num
    split
    · rcases enqErr with _ | e <;>
        simp [fchflagsOp, fileWrite, lseekSet0, ftruncate0]
    · simp [fileWrite, lseekSet0, ftruncate0, fchflagsOp]
  · rintro rfl
    simp only [stream_get_transaction, WEBDAV_CONNECTION_UP]
    norm_num
    split
    · rcases enqErr with _ | e <;>
        simp [fchflagsOp, fileWrite, lseekEnd, List.drop_eq_nil_of_le]
    · simp [fileWrite, lseekEnd, fchflagsOp, List.drop_eq_nil_of_le]
  · intro h200 h206
    simp [stream_get_transaction, WEBDAV_CONNECTION_UP, h200, h206]

/-- C4 witness: concrete instantiations at statuses 200, 206 and 304
(file starts as content [1, 2], buffer is [7]). -/
theorem stream_get_status_cases_witness :
    (stream_get_transaction false WEBDAV_CONNECTION_UP true none
      (ReadPhase.ok [7] false) 200 false none
      ⟨⟨0, [1, 2], 0⟩, WEBDAV_DOWNLOAD_FINISHED⟩).node.file.data = [7] ∧
    (stream_get_transaction false WEBDAV_CONNECTION_UP true none
      (ReadPhase.ok [7] false) 206 false none
      ⟨⟨0, [1, 2], 0⟩, WEBDAV_DOWNLOAD_FINISHED⟩).node.file.data = [1, 2] ++ [7] ∧
    ((stream_get_transaction false WEBDAV_CONNECTION_UP true none
      (ReadPhase.ok [7] false) 304 false none
      ⟨⟨0, [1, 2], 0⟩, WEBDAV_DOWNLOAD_FINISHED⟩).node.file = ⟨0, [1, 2], 0⟩ ∧
     (stream_get_transaction false WEBDAV_CONNECTION_UP true none
      (ReadPhase.ok [7] false) 304 false none
      ⟨⟨0, [1, 2], 0⟩, WEBDAV_DOWNLOAD_FINISHED⟩).node.file_status =
        WEBDAV_DOWNLOAD_FINISHED) :=
  ⟨(stream_get_status_cases [7] false 200 false none
      ⟨⟨0, [1, 2], 0⟩, WEBDAV_DOWNLOAD_FINISHED⟩ true).1 rfl,
   (stream_get_status_cases [7] false 206 false none
      ⟨⟨0, [1, 2], 0⟩, WEBDAV_DOWNLOAD_FINISHED⟩ true).2.1 rfl,
   (stream_get_status_cases [7] false 304 false none
      ⟨⟨0, [1, 2], 0⟩, WEBDAV_DOWNLOAD_FINISHED⟩ true).2.2 (by decide) (by decide)⟩

/-- C3 counterexample: a full first read with more bytes remaining but
response status 304 does NOT hand off to the background download: the
status arm forces background_load off, so enqueue_download is never
called, the slot is released on the foreground path, and the download
status is set to finished rather than in_progress. -/
theorem stream_get_304_no_handoff :
    (stream_get_transaction false WEBDAV_CONNECTION_UP true none
      (ReadPhase.ok (List.replicate first_read_len 7) true) 304 false none
      ⟨⟨0, [1, 2], 0⟩, WEBDAV_DOWNLOAD_FINISHED⟩).enqueued = 0 ∧
    (stream_get_transaction false WEBDAV_CONNECTION_UP true none
      (ReadPhase.ok (List.replicate first_read_len 7) true) 304 false none
      ⟨⟨0, [1, 2], 0⟩, WEBDAV_DOWNLOAD_FINISHED⟩).slotReleased = true ∧
    (stream_get_transaction false WEBDAV_CONNECTION_UP true none
      (ReadPhase.ok (List.replicate first_read_len 7) true) 304 false none
      ⟨⟨0, [1, 2], 0⟩, WEBDAV_DOWNLOAD_FINISHED⟩).node.file_status =
      WEBDAV_DOWNLOAD_FINISHED ∧
    WEBDAV_DOWNLOAD_FINISHED ≠ WEBDAV_DOWNLOAD_IN_PROGRESS := by
  refine ⟨?_, ?_, ?_, by decide⟩ <;>
    simp [stream_get_transaction, WEBDAV_CONNECTION_UP]

/-- C3 amended: when after reading the first `first_read_len` bytes
more response bytes remain AND the response status is 200 or 206 (the
304 and default arms force the handoff off), the node's download
status is set to in_progress, the cache fd gets the UF_NODUMP flag,
enqueue_download is invoked exactly once, the call returns success,
and the foreground path neither releases the slot nor closes the
stream. -/
theorem stream_get_background_handoff (bytes : List Nat) (hdr : Bool)
    (node : NodeState) (retry : Bool) (statusCode : Nat)
    (hlen : first_read_len ≤ bytes.length)
    (hstatus : statusCode = 200 ∨ statusCode = 206) :
    (stream_get_transaction false WEBDAV_CONNECTION_UP retry none
      (ReadPhase.ok bytes true) statusCode hdr none node).enqueued = 1 ∧
    (stream_get_transaction false WEBDAV_CONNECTION_UP retry none
      (ReadPhase.ok bytes true) statusCode hdr none node).slotReleased = false ∧
    (stream_get_transaction false WEBDAV_CONNECTION_UP retry none
      (ReadPhase.ok bytes true) statusCode hdr none node).streamClosed = false ∧
    (stream_get_transaction false WEBDAV_CONNECTION_UP retry none
      (ReadPhase.ok bytes true) statusCode hdr none node).result = 0 ∧
    (stream_get_transaction false WEBDAV_CONNECTION_UP retry none
      (ReadPhase.ok bytes true) statusCode hdr none node).node.file_status =
      WEBDAV_DOWNLOAD_IN_PROGRESS ∧
    (stream_get_transaction false WEBDAV_CONNECTION_UP retry none
      (ReadPhase.ok bytes true) statusCode hdr none node).node.file.flags =
      UF_NODUMP := by
  rcases hstatus with rfl | rfl <;>
    simp [stream_get_transaction, WEBDAV_CONNECTION_UP, hlen, fchflagsOp]

/-- C3 witness: a 200 response whose first read fills the whole
`first_read_len` buffer with more bytes remaining hands off exactly
once without releasing the slot. -/
theorem stream_get_background_handoff_witness :
    (stream_get_transaction false WEBDAV_CONNECTION_UP true none
      (ReadPhase.ok (List.replicate first_read_len 7) true) 200 false none
      ⟨⟨0, [], 0⟩, WEBDAV_DOWNLOAD_NEVER⟩).enqueued = 1 ∧
    (stream_get_transaction false WEBDAV_CONNECTION_UP true none
      (ReadPhase.ok (List.replicate first_read_len 7) true) 200 false none
      ⟨⟨0, [], 0⟩, WEBDAV_DOWNLOAD_NEVER⟩).slotReleased = false ∧
    (stream_get_transaction false WEBDAV_CONNECTION_UP true none
      (ReadPhase.ok (List.replicate first_read_len 7) true) 200 false none
      ⟨⟨0, [], 0⟩, WEBDAV_DOWNLOAD_NEVER⟩).streamClosed = false ∧
    (stream_get_transaction false WEBDAV_CONNECTION_UP true none
      (ReadPhase.ok (List.replicate first_read_len 7) true) 200 false none
      ⟨⟨0, [], 0⟩, WEBDAV_DOWNLOAD_NEVER⟩).result = 0 ∧
    (stream_get_transaction false WEBDAV_CONNECTION_UP true none
      (ReadPhase.ok (List.replicate first_read_len 7) true) 200 false none
      ⟨⟨0, [], 0⟩, WEBDAV_DOWNLOAD_NEVER⟩).node.file_status =
      WEBDAV_DOWNLOAD_IN_PROGRESS ∧
    (stream_get_transaction false WEBDAV_CONNECTION_UP true none
      (ReadPhase.ok (List.replicate first_read_len 7) true) 200 false none
      ⟨⟨0, [], 0⟩, WEBDAV_DOWNLOAD_NEVER⟩).node.file.flags = UF_NODUMP :=
  stream_get_background_handoff (List.replicate first_read_len 7) false
    ⟨⟨0, [], 0⟩, WEBDAV_DOWNLOAD_NEVER⟩ true 200 (by simp) (Or.inl rfl)

/-! ## network_unlock

The node's lock fields (`file_locktoken`, `file_locktoken_uid` — the
uid that acquired the lock, per the data model) become a small record.
The URL build (`create_cfurl_from_node` can fail when the node path
cannot be produced) and the Lock-Token header format step
(`CFStringCreateWithFormat`) become boolean success inputs, and the
`send_transaction` outcome an abstract errno input.  The output
records the issued UNLOCK request, if any: the uid it ran under and
the Lock-Token header value `"<" token ">"`. -/

structure LockNode where
  file_locktoken : Option (List Char)
  file_locktoken_uid : Nat
deriving DecidableEq, Repr

structure UnlockRequest where
  uid : Nat
  lockTokenHeader : List Char
deriving DecidableEq, Repr

/-- network_unlock (webdav_network.c).  Whatever path is taken —
URL-build failure, Lock-Token format failure, or transaction success
or failure — the code after the cleanup labels frees the lock token,
nulls it, and resets the lock uid to 0. -/
def network_unlock (node : LockNode) (urlOk formatOk : Bool) (txError : Nat) :
    Nat × LockNode × Option UnlockRequest :=
  let cleared : LockNode := ⟨none, 0⟩
  if ¬ urlOk then (EIO_errno, cleared, none)
  else if ¬ formatOk then (EIO_errno, cleared, none)
  else
    (txError, cleared,
      some ⟨node.file_locktoken_uid,
        '<' :: node.file_locktoken.getD [] ++ ['>']⟩)

/-- C10: after network_unlock returns — on every path, including the
URL and Lock-Token build failures — the node's lock token is null and
the lock-owning uid is 0; the UNLOCK request, which is issued exactly
when both build steps succeed, runs under `file_locktoken_uid`, the
uid that acquired the lock, with the token in angle brackets as the
Lock-Token header. -/
theorem network_unlock_clears_lock (node : LockNode) (urlOk formatOk : Bool)
    (txError : Nat) :
    (network_unlock node urlOk formatOk txError).2.1.file_locktoken = none ∧
    (network_unlock node urlOk formatOk txError).2.1.file_locktoken_uid = 0 ∧
    (network_unlock node urlOk formatOk txError).2.2 =
      (if urlOk ∧ formatOk then
        some ⟨node.file_locktoken_uid,
          '<' :: node.file_locktoken.getD [] ++ ['>']⟩
       else none) ∧
    (network_unlock node urlOk formatOk txError).1 =
      (if urlOk ∧ formatOk then txError else EIO_errno) := by
  rcases urlOk with _ | _ <;> rcases formatOk with _ | _ <;>
    simp [network_unlock]

/-! ## create_cfurl_from_node

The node path and child name are UTF-8 byte strings (`List Nat`,
each byte < 256).  Modelled from the spec:
`CFURLCreateStringByAddingPercentEscapes`, `CFURLCreateWithString` and
`CFURLCopyAbsoluteURL` are CoreFoundation routines, not repository
code.  Per the spec, the escaping step percent-encodes every byte not
permitted in a URL path and additionally `':'`, `';'`, `'?'`; a byte
permitted in a URL path is an RFC 2396 pchar or segment delimiter
(alphanumerics, the marks, the pchar extras, `';'` and `'/'`).  The
resolution against the base URL is kept abstract in the result type:
`CFURL.base` is the retained `gBaseURL` object itself, and
`CFURL.absolute p` the absolute URL obtained by resolving the escaped
relative path `p` against it. -/

def isLegalURLPathChar (b : Nat) : Bool :=
  (48 ≤ b ∧ b ≤ 57) ∨ (65 ≤ b ∧ b ≤ 90) ∨ (97 ≤ b ∧ b ≤ 122) ∨
    b ∈ [45, 95, 46, 33, 126, 42, 39, 40, 41, 58, 64, 38, 61, 43, 36, 44, 59, 47]

def hexUpper (d : Nat) : Nat :=
  if d < 10 then 48 + d else 55 + d

def hexVal (v : Nat) : Nat :=
  if 48 ≤ v ∧ v ≤ 57 then v - 48
  else if 65 ≤ v ∧ v ≤ 70 then v - 55
  else 0

/-- Escape one byte: kept verbatim when legal in a URL path and not
one of the three extra characters `':'` (58), `';'` (59), `'?'` (63);
otherwise replaced by `%XX` (37 is `'%'`). -/
def escapeByte (b : Nat) : List Nat :=
  if isLegalURLPathChar b ∧ b ≠ 58 ∧ b ≠ 59 ∧ b ≠ 63 then [b]
  else [37, hexUpper (b / 16), hexUpper (b % 16)]

def percentEscape : List Nat → List Nat
  | [] => []
  | b :: rest => escapeByte b ++ percentEscape rest

/-- Standard percent-decoding, used to state the round-trip property
(a `'%'` not followed by two bytes is kept; escaping never produces
that shape). -/
def percentDecode : List Nat → List Nat
  | [] => []
  | b :: rest =>
    if b = 37 then
      match rest with
      | h :: l :: rest2 => (hexVal h * 16 + hexVal l) :: percentDecode rest2
      | [x] => [b, x]
      | [] => [b]
    else b :: percentDecode rest

inductive CFURL where
  | base
  | absolute (escapedRelative : List Nat)
deriving DecidableEq, Repr

/-- create_cfurl_from_node (webdav_network.c): append up to
`name_length` bytes of the child name to the node path (`strncat`);
with an empty relative path, retain and return the base URL itself;
otherwise percent-escape and resolve against the base URL. -/
def create_cfurl_from_node (node_path name : List Nat) (name_length : Nat) : CFURL :=
  let path := node_path ++ name.take name_length
  if path = [] then CFURL.base
  else CFURL.absolute (percentEscape path)

theorem hexRoundTrip : ∀ d, d < 16 → hexVal (hexUpper d) = d := by decide

theorem percentDecode_cons_of_ne (b : Nat) (rest : List Nat) (h : b ≠ 37) :
    percentDecode (b :: rest) = b :: percentDecode rest := by
  rcases rest with _ | ⟨x, _ | ⟨y, t⟩⟩ <;> simp [percentDecode, h]

theorem percentDecode_triple (h l : Nat) (rest : List Nat) :
    percentDecode (37 :: h :: l :: rest) =
      (hexVal h * 16 + hexVal l) :: percentDecode rest := by
  simp [percentDecode]

theorem percentDecode_percentEscape (s : List Nat) (h : ∀ b ∈ s, b < 256) :
    percentDecode (percentEscape s) = s := by
  induction s with
  | nil => rfl
  | cons b rest ih =>
    have hb : b < 256 := h b (by simp)
    have hrest : ∀ x ∈ rest, x < 256 := fun x hx => h x (by simp [hx])
    by_cases hk : isLegalURLPathChar b ∧ b ≠ 58 ∧ b ≠ 59 ∧ b ≠ 63
    · have hb37 : b ≠ 37 := by
        rintro rfl
        exact absurd hk.1 (by decide)
      rw [percentEscape, escapeByte, if_pos hk, List.singleton_append,
        percentDecode_cons_of_ne b _ hb37, ih hrest]
    · have h1 : b / 16 < 16 := by omega
      have h2 : b % 16 < 16 := by omega
      rw [percentEscape, escapeByte, if_neg hk]
      show percentDecode (37 :: hexUpper (b / 16) :: hexUpper (b % 16) ::
        percentEscape rest) = b :: rest
      rw [percentDecode_triple, hexRoundTrip _ h1, hexRoundTrip _ h2, ih hrest]
      congr 1
      omega

/-- C8: the URL builder.  With an empty composed relative path the
function returns the base URL object itself; with a nonempty path it
returns the percent-escaped path resolved against the base URL, and
the escaping round-trips: percent-decoding recovers the raw path
byte-for-byte.  A byte legal in a URL path other than `':'`, `';'`,
`'?'` is kept verbatim; an illegal byte, and each of `':'`, `';'`,
`'?'`, is percent-escaped. -/
theorem create_cfurl_from_node_spec (node_path name : List Nat) (name_length : Nat) :
    (node_path ++ name.take name_length = [] →
      create_cfurl_from_node node_path name name_length = CFURL.base) ∧
    (node_path ++ name.take name_length ≠ [] →
      create_cfurl_from_node node_path name name_length =
        CFURL.absolute (percentEscape (node_path ++ name.take name_length))) ∧
    ((∀ b ∈ node_path ++ name.take name_length, b < 256) →
      percentDecode (percentEscape (node_path ++ name.take name_length)) =
        node_path ++ name.take name_length) ∧
    (∀ b, isLegalURLPathChar b = true → b ≠ 58 → b ≠ 59 → b ≠ 63 →
      escapeByte b = [b]) ∧
    (∀ b, isLegalURLPathChar b = false ∨ b = 58 ∨ b = 59 ∨ b = 63 →
      escapeByte b = [37, hexUpper (b / 16), hexUpper (b % 16)]) := by
  refine ⟨?_, ?_, percentDecode_percentEscape _, ?_, ?_⟩
  · intro h
    simp [create_cfurl_from_node, h]
  · intro h
    simp [create_cfurl_from_node, h]
  · intro b h1 h2 h3 h4
    simp [escapeByte, h1, h2, h3, h4]
  · intro b h
    rcases h with h | rfl | rfl | rfl
    · simp [escapeByte, h]
    · decide
    · decide
    · decide

/-- C8 witness: the base-URL-only case for the root node, and the
escaped form of the path bytes `"a:b"` (58 is `':'`, escaped to
`%3A`). -/
theorem create_cfurl_from_node_spec_witness :
    create_cfurl_from_node [] [] 0 = CFURL.base ∧
    create_cfurl_from_node [97, 58, 98] [] 0 =
      CFURL.absolute (percentEscape [97, 58, 98]) ∧
    percentDecode (percentEscape [97, 58, 98]) = [97, 58, 98] ∧
    escapeByte 97 = [97] ∧
    escapeByte 58 = [37, hexUpper 3, hexUpper 10] :=
  ⟨(create_cfurl_from_node_spec [] [] 0).1 rfl,
   (create_cfurl_from_node_spec [97, 58, 98] [] 0).2.1 (by decide),
   (create_cfurl_from_node_spec [97, 58, 98] [] 0).2.2.1 (by decide),
   (create_cfurl_from_node_spec [] [] 0).2.2.2.1 97 (by decide) (by decide)
     (by decide) (by decide),
   (create_cfurl_from_node_spec [] [] 0).2.2.2.2 58 (by decide)⟩

end WebdavNetwork
